import Mathlib

set_option maxRecDepth 100000

/-- The full text of src/test-ghost-text.py, split at newline characters.
The file on disk ends without a trailing newline, so splitting its 77
newline characters yields these 78 lines; the last is the closing triple
quote of the final string literal. -/
def fileLines : List String := [
  "# xCopilot Ghost Text Test File - Python",
  "# Test various Python scenarios for ghost text suggestions",
  "",
  "# Test 1: Function definitions",
  "def calculate_sum(a, b):",
  "    # Cursor here should suggest: return a + b",
  "",
  "def process_data(df):",
  "    # Cursor here should suggest pandas operations or data processing",
  "",
  "# Test 2: Class definitions",
  "class UserService:",
  "    def __init__(self):",
  "        # Cursor here should suggest initialization",
  "    ",
  "    def get_user(self, user_id):",
  "        # Cursor here should suggest database query or API call",
  "    ",
  "    # Cursor here should suggest new methods",
  "",
  "# Test 3: Conditional statements",
  "def check_user(user):",
  "    if user and user.get(\x27active\x27):",
  "        # Cursor here should suggest appropriate action",
  "    ",
  "    # Cursor here should suggest else clause",
  "",
  "# Test 4: Loop structures  ",
  "def process_items(items):",
  "    for item in items:",
  "        # Cursor here should suggest item processing",
  "    ",
  "    # Cursor here should suggest return or next logic",
  "",
  "# Test 5: List comprehensions",
  "users = [user for user in data if ",
  "    # Cursor here should suggest filter condition",
  "]",
  "",
  "# Test 6: Dictionary operations",
  "user_data = \x7b",
  "    \x27id\x27: user_id,",
  "    \x27name\x27: user_name,",
  "    # Cursor here should suggest more fields",
  "\x7d",
  "",
  "# Test 7: Exception handling",
  "try:",
  "    # Cursor here should suggest try block content",
  "except Exception as e:",
  "    # Cursor here should suggest error handling",
  "",
  "# Test 8: Async functions (Python 3.7+)",
  "async def fetch_data():",
  "    # Cursor here should suggest await patterns",
  "",
  "# Test 9: Lambda functions",
  "process_func = lambda x: ",
  "    # Cursor here should suggest lambda body",
  "",
  "# Test 10: Import statements",
  "from datetime import ",
  "    # Cursor here should suggest datetime imports",
  "",
  "# Test 11: With statements",
  "with open(\x27file.txt\x27, \x27r\x27) as file:",
  "    # Cursor here should suggest file operations",
  "",
  "\"\"\"",
  "Instructions for testing Python ghost text:",
  "1. Open this file in VS Code with xCopilot extension enabled",
  "2. Place cursor at the end of comment lines mentioning \"Cursor here\"",
  "3. Wait 500ms for ghost text to appear",
  "4. Verify Python-specific suggestions appear",
  "5. Test multi-line function and class suggestions",
  "6. Test context-aware suggestions based on function names",
  "7. Verify language-specific patterns are detected",
  "\"\"\""
]

/-- The line of the file at 0-based index i (1-based line number i + 1). -/
def lineAt (i : Nat) : String := fileLines.getD i ""

/-- Lines joined by single newline separators, with no trailing newline. -/
def joinNL : List String → String
  | [] => ""
  | [l] => l
  | l :: m :: rest => l ++ "\n" ++ joinNL (m :: rest)

/-- The file text reassembled from its lines with newline separators,
matching the bytes on disk (no trailing newline). -/
def fileText : String := joinNL fileLines

/-- Count of newline characters in a string. -/
def countNL (s : String) : Nat := s.data.countP (fun c => c == '\n')

def isPrefixChars : List Char → List Char → Bool
  | [], _ => true
  | _ :: _, [] => false
  | a :: as, b :: bs => a == b && isPrefixChars as bs

def hasSubChars (pat : List Char) : List Char → Bool
  | [] => isPrefixChars pat []
  | c :: rest => isPrefixChars pat (c :: rest) || hasSubChars pat rest

/-- s contains pat as a contiguous substring. -/
def hasSub (s pat : String) : Bool := hasSubChars pat.data s.data

/-- The characters of a line after its leading spaces. -/
def afterIndent (s : String) : List Char := s.data.dropWhile (fun c => c == ' ')

/-- Number of leading spaces of a line (the file contains no tabs). -/
def indentOf (s : String) : Nat := (s.data.takeWhile (fun c => c == ' ')).length

/-- A line that is empty or consists only of spaces. -/
def isBlankLine (s : String) : Bool := s.data.all (fun c => c == ' ')

/-- A line whose first non-space character is the hash sign. -/
def isCommentLine (s : String) : Bool :=
  match afterIndent s with
  | '#' :: _ => true
  | _ => false

/-- The last non-space character of the line is a colon. -/
def endsColon (s : String) : Bool :=
  match s.data.reverse.dropWhile (fun c => c == ' ') with
  | ':' :: _ => true
  | _ => false

/-- Drop trailing spaces from a character list. -/
def rstripChars (l : List Char) : List Char :=
  (l.reverse.dropWhile (fun c => c == ' ')).reverse

/-- A physical line that opens a suite: a logical line (neither blank nor a
comment) whose last non-space character is a colon. -/
def isHeaderLine (s : String) : Bool :=
  !(isBlankLine s) && !(isCommentLine s) && endsColon s

/-- The line, after its leading spaces, begins with the given text. -/
def stmtKeywordIs (s kw : String) : Bool := isPrefixChars kw.data (afterIndent s)

/-- Modelled from the spec: the Python parser itself is not part of this
repository. Python grammar requires the suite of a compound statement to
contain at least one statement; comment lines and blank lines are not
statements, so after a header line the first logical line must be indented
more deeply than the header or the parse fails with a syntax error. This
scans the lines that follow a header of the given indentation and returns
true when the suite contains no statement: every line up to the first
logical line is blank or a comment, and that logical line (if any) is not
indented beyond the header. -/
def suiteLinesEmpty (ind : Nat) : List String → Bool
  | [] => true
  | l :: rest =>
    if isBlankLine l || isCommentLine l then suiteLinesEmpty ind rest
    else Nat.ble (indentOf l) ind

/-- Modelled from the spec: true when the 0-based line i of the file is a
block header whose suite contains no statement, a configuration a Python
parser rejects as a syntax error. -/
def emptySuiteAt (i : Nat) : Bool :=
  match fileLines.drop i with
  | [] => false
  | l :: rest => isHeaderLine l && suiteLinesEmpty (indentOf l) rest

/-- The file contains some block header with an empty suite. -/
def hasEmptySuite : Bool := (List.range fileLines.length).any emptySuiteAt

/-- Scans a block body after a header of indentation ind: skips blank lines
and comments indented beyond the header (recording whether some such comment
mentions the cursor placement), stops at the first comment or logical line
at the header indentation or less, and fails if a logical line indented
beyond the header appears. Returns true when the body holds at least one
cursor comment and nothing else. -/
def blockBodyOnlyCursor (ind : Nat) (found : Bool) : List String → Bool
  | [] => found
  | l :: rest =>
    if isBlankLine l then blockBodyOnlyCursor ind found rest
    else if isCommentLine l then
      if Nat.blt ind (indentOf l) then
        blockBodyOnlyCursor ind (found || hasSub l "Cursor here") rest
      else found
    else if Nat.blt ind (indentOf l) then false
    else found

/-- The 0-based line i is a block header whose body consists only of
comments, at least one of them a cursor-placement comment. -/
def blockOnlyCursorAt (i : Nat) : Bool :=
  match fileLines.drop i with
  | [] => false
  | l :: rest => isHeaderLine l && blockBodyOnlyCursor (indentOf l) false rest

/-- The line ends, after trailing spaces, with the keyword "if": the
condition that should follow it is missing. -/
def endsWithIfKw (s : String) : Bool :=
  match s.data.reverse.dropWhile (fun c => c == ' ') with
  | 'f' :: 'i' :: ' ' :: _ => true
  | _ => false

/-- The 0-based line i opens a list comprehension assignment whose filter
condition is missing: the line ends with a dangling "if", the next line is
a cursor-placement comment, and the line after closes the bracket. -/
def incompleteComprehensionAt (i : Nat) : Bool :=
  match fileLines.drop i with
  | a :: b :: c :: _ =>
    hasSub a "= [" && hasSub a " for " && hasSub a " in " && endsWithIfKw a &&
      isCommentLine b && hasSub b "Cursor here" && rstripChars c.data == [']']
  | _ => false

/-- The line is exactly a triple double quote. -/
def isTripleQuoteLine (s : String) : Bool := s == "\"\"\""

/-- 0-based index of the first triple-quote line: the final string literal
of the file spans from this line to the last line. -/
def firstTQ : Nat := fileLines.findIdx isTripleQuoteLine

/-- Decimal value of a digit list. -/
def natOfDigits (l : List Char) : Nat :=
  l.foldl (fun acc c => 10 * acc + (c.toNat - 48)) 0

/-- The instruction number of a line that begins with one or more digits
followed by a dot, and none otherwise. -/
def numberedAt (s : String) : Option Nat :=
  match s.data.takeWhile Char.isDigit, s.data.dropWhile Char.isDigit with
  | [], _ => none
  | ds, '.' :: _ => some (natOfDigits ds)
  | _, _ => none

/-- The instruction numbers of the numbered lines among the given lines,
in order of appearance. -/
def numberedLinesIn (ls : List String) : List Nat := ls.filterMap numberedAt

/-- The comment label of the n-th test scenario. -/
def testLabel (n : Nat) : String := "# Test " ++ Nat.repr n ++ ":"

/-- 0-based index of the line carrying the n-th test label. -/
def labelIdx (n : Nat) : Nat := fileLines.findIdx (fun l => hasSub l (testLabel n))

/-- How many lines carry the n-th test label. -/
def labelCount (n : Nat) : Nat := fileLines.countP (fun l => hasSub l (testLabel n))

/-- 0-based index one past the end of the n-th test section: the next label
line, or the start of the final string literal for the last section. -/
def sectionEnd (n : Nat) : Nat := if n = 11 then firstTQ else labelIdx (n + 1)

/-- The n-th test section contains a cursor-placement comment line. -/
def sectionHasCursor (n : Nat) : Bool :=
  ((fileLines.drop (labelIdx n)).take (sectionEnd n - labelIdx n)).any
    (fun l => isCommentLine l && hasSub l "Cursor here")

/-- 0-based indices of the lines before the final string literal that
mention the cursor placement. -/
def cursorLineIdxs : List Nat :=
  (List.range firstTQ).filter (fun i => hasSub (lineAt i) "Cursor here")

/-- The character list contains a digit immediately followed by the letters
m and s: a millisecond duration such as 500ms. -/
def hasDigitMs : List Char → Bool
  | a :: b :: c :: rest => (a.isDigit && b == 'm' && c == 's') || hasDigitMs (b :: c :: rest)
  | _ => false

/-- Claim C1: src/test-ghost-text.py is not valid Python. Line 5 (0-based 4)
is the header `def calculate_sum(a, b):` and its suite contains only a
comment line and a blank line before the next top-level logical line, so by
the suite-nonempty rule of Python grammar (modelled above, since the Python
parser is external to this repository) a parser fails with a syntax error.
The file moreover contains at least one such empty-suite header. -/
theorem C1_not_valid_python :
    lineAt 4 = "def calculate_sum(a, b):" ∧ stmtKeywordIs (lineAt 4) "def " = true ∧
    emptySuiteAt 4 = true ∧ hasEmptySuite = true := by
  exact ⟨rfl, rfl, rfl, rfl⟩

/-- Claim C2: every line before the final string literal (which starts at
0-based index 68) that contains "Cursor here" also contains the word
"suggest". -/
theorem C2_cursor_lines_mention_suggest :
    firstTQ = 68 ∧
    ((fileLines.take firstTQ).all
      (fun l => !(hasSub l "Cursor here") || hasSub l "suggest")) = true := by
  exact ⟨rfl, rfl⟩

/-- Claim C3, counterexample: the only class-definition line of the file is
0-based line 11 (`class UserService:`), and its block body does not consist
only of a "Cursor here" comment: the body contains the method headers, so no
class definition in the file is incomplete in the claimed sense. -/
theorem C3_counterexample :
    ((List.range fileLines.length).filter (fun i => stmtKeywordIs (lineAt i) "class ")) = [11] ∧
    blockOnlyCursorAt 11 = false := by
  exact ⟨rfl, rfl⟩

/-- Claim C3 as amended: the file contains a deliberately incomplete
function definition (line 5), loop (line 30), comprehension (lines 36-38)
and exception handler (line 51), each with a body or expression that is only
a "Cursor here" comment; the one class definition (line 12) is incomplete
through its methods: each method body (lines 13, 16) consists only of a
"Cursor here" comment, while the class body itself also holds the method
headers. -/
theorem C3_incomplete_blocks_amended :
    stmtKeywordIs (lineAt 4) "def " = true ∧ blockOnlyCursorAt 4 = true ∧
    stmtKeywordIs (lineAt 29) "for " = true ∧ blockOnlyCursorAt 29 = true ∧
    incompleteComprehensionAt 35 = true ∧
    stmtKeywordIs (lineAt 49) "except " = true ∧ blockOnlyCursorAt 49 = true ∧
    stmtKeywordIs (lineAt 11) "class " = true ∧
    stmtKeywordIs (lineAt 12) "def " = true ∧ blockOnlyCursorAt 12 = true ∧
    stmtKeywordIs (lineAt 15) "def " = true ∧ blockOnlyCursorAt 15 = true := by
  exact ⟨rfl, rfl, rfl, rfl, rfl, rfl, rfl, rfl, rfl, rfl, rfl, rfl⟩

/-- Claim C4: the final non-empty region of the file is the string-literal
block from 0-based line 68 (the first triple-quote line) to line 77 (the
last line of the file, the closing triple quote); no line strictly inside
the block holds another triple quote; the line just before the block is
blank; the numbered lines of the block carry the numbers 1 through 7
consecutively; and no numbered line appears before the block. -/
theorem C4_numbered_instructions_at_bottom :
    firstTQ = 68 ∧ fileLines.length = 78 ∧
    isTripleQuoteLine (lineAt 77) = true ∧
    (((fileLines.drop (firstTQ + 1)).take 8).all (fun l => !(hasSub l "\"\"\""))) = true ∧
    isBlankLine (lineAt 67) = true ∧
    numberedLinesIn (fileLines.take firstTQ) = [] ∧
    numberedLinesIn (fileLines.drop firstTQ) = [1, 2, 3, 4, 5, 6, 7] := by
  exact ⟨rfl, rfl, rfl, rfl, rfl, rfl, rfl⟩

/-- Claim C5, counterexample: the text of src/test-ghost-text.py does not
have 77 lines under the line convention the claim set itself uses (lines are
the segments between newline characters, the final unterminated segment
included, so that the closing triple quote is line 78): it has 78. -/
theorem C5_counterexample : ¬ (fileLines.length = 77) := by
  decide

/-- Newline counting distributes over string append. -/
theorem countNL_append (s t : String) : countNL (s ++ t) = countNL s + countNL t := by
  unfold countNL
  have hd : (s ++ t).data = s.data ++ t.data := rfl
  rw [hd, List.countP_append]

/-- Joining newline-free lines with single newline separators yields one
newline fewer than there are lines. -/
theorem countNL_joinNL (ls : List String) (h : ∀ l ∈ ls, countNL l = 0) :
    countNL (joinNL ls) = ls.length - 1 := by
  match ls with
  | [] => rfl
  | [l] =>
    show countNL l = 0
    exact h l (by simp)
  | l :: m :: rest =>
    show countNL (l ++ "\n" ++ joinNL (m :: rest)) = (m :: rest).length
    rw [countNL_append, countNL_append]
    rw [h l (by simp), countNL_joinNL (m :: rest) (fun x hx => h x (List.mem_cons_of_mem l hx))]
    have h1 : countNL "\n" = 1 := rfl
    rw [h1, List.length_cons]
    omega

/-- A closed instance of countNL_joinNL at a two-line list, checking the
newline bookkeeping on a concrete value. -/
theorem countNL_joinNL_witness :
    (∀ l ∈ ["ab", "c"], countNL l = 0) ∧ countNL (joinNL ["ab", "c"]) = (["ab", "c"] : List String).length - 1 :=
  ⟨by decide, countNL_joinNL ["ab", "c"] (by decide)⟩

/-- Claim C5 as amended: the text of src/test-ghost-text.py has 78 lines
when split at its newline characters; equivalently, since no line contains
a newline and the lines are joined by single newlines with the final line
unterminated, the text contains exactly 77 newline characters. -/
theorem C5_line_count_amended :
    fileLines.length = 78 ∧ countNL fileText = 77 := by
  have h : ∀ l ∈ fileLines, countNL l = 0 := by decide
  refine ⟨rfl, ?_⟩
  show countNL (joinNL fileLines) = 77
  rw [countNL_joinNL fileLines h]
  rfl

/-- Claim C6, counterexample: 0-based line 61 of the file is the import
statement `from datetime import ` (1-based line 62); it is not a comment,
not blank, not inside the final string literal, and not a block header, so
the file does contain an import statement outside every excepted category. -/
theorem C6_counterexample :
    lineAt 61 = "from datetime import " ∧ isCommentLine (lineAt 61) = false ∧
    isBlankLine (lineAt 61) = false ∧ isHeaderLine (lineAt 61) = false ∧
    61 < firstTQ ∧ stmtKeywordIs (lineAt 61) "from " = true := by
  exact ⟨rfl, rfl, rfl, rfl, by decide, rfl⟩

/-- Claim C6 as amended: apart from comments, blank lines, the final string
literal and the block headers, the only remaining lines of the file are the
assignment fragments `users = [...]` (0-based 35 and 37 around its cursor
comment), `user_data = \x7b...\x7d` (0-based 40, 41, 42, 44) and the import
line `from datetime import ` (0-based 61); the lambda assignment and the
with-statement call lie on colon-terminated header lines. Since the file
has a block header with an empty suite it never parses, so none of this
text can execute. -/
theorem C6_no_runtime_logic_amended :
    ((List.range fileLines.length).filter (fun i =>
        !(isCommentLine (lineAt i) || isBlankLine (lineAt i) ||
          isHeaderLine (lineAt i) || Nat.ble firstTQ i))) = [35, 37, 40, 41, 42, 44, 61] ∧
    hasSub (lineAt 35) "= [" = true ∧ lineAt 37 = "]" ∧
    hasSub (lineAt 40) "= \x7b" = true ∧ lineAt 44 = "\x7d" ∧
    stmtKeywordIs (lineAt 61) "from " = true ∧
    isHeaderLine (lineAt 57) = true ∧ hasSub (lineAt 57) "lambda" = true ∧
    isHeaderLine (lineAt 65) = true ∧ hasSub (lineAt 65) "open(" = true ∧
    hasEmptySuite = true := by
  exact ⟨rfl, rfl, rfl, rfl, rfl, rfl, rfl, rfl, rfl, rfl, rfl⟩

/-- Claim C7, counterexample: 0-based line 53 of the file is exactly
`async def fetch_data():`, an async function definition header, so the text
does contain a concurrency construct of the kind the claim rules out. -/
theorem C7_counterexample :
    lineAt 53 = "async def fetch_data():" ∧
    stmtKeywordIs (lineAt 53) "async def " = true := by
  exact ⟨rfl, rfl⟩

/-- Claim C7 as amended: the file contains no threading or multiprocessing
references; its concurrency text is limited to the single incomplete async
function definition header on 0-based line 53 (the only line mentioning
"async") and the word "await" inside the comment on 0-based line 54 (the
only line mentioning it). -/
theorem C7_no_concurrency_amended :
    (fileLines.all (fun l => !(hasSub l "threading") && !(hasSub l "multiprocessing"))) = true ∧
    ((List.range fileLines.length).filter (fun i => hasSub (lineAt i) "async")) = [53] ∧
    ((List.range fileLines.length).filter (fun i => hasSub (lineAt i) "await")) = [54] ∧
    isCommentLine (lineAt 54) = true := by
  exact ⟨rfl, rfl, rfl, rfl⟩

/-- Claim C8: the labels "# Test 1:" through "# Test 11:" each occur on
exactly one line, those lines appear in ascending order, and every one of
the eleven sections they open (each running to the next label, the last to
the start of the final string literal) contains at least one comment line
mentioning "Cursor here". -/
theorem C8_eleven_test_sections :
    ((List.range' 1 11).all (fun n => labelCount n == 1 && sectionHasCursor n)) = true ∧
    ((List.range' 1 10).all (fun n => Nat.blt (labelIdx n) (labelIdx (n + 1)))) = true := by
  exact ⟨rfl, rfl⟩

/-- Claim C9: every line before the final string literal that contains
"Cursor here" is a comment line (its first non-space character is a hash),
and there are exactly 17 such lines. -/
theorem C9_seventeen_cursor_comments :
    (cursorLineIdxs.all (fun i => isCommentLine (lineAt i))) = true ∧
    cursorLineIdxs.length = 17 := by
  exact ⟨rfl, rfl⟩

/-- Claim C10: 0-based line 72 of the file is instruction 3 of the final
string literal, reading `3. Wait 500ms for ghost text to appear`; it is the
only line of the file containing a digit immediately followed by "ms" (a
millisecond duration) and the only line containing "Wait", so the 500ms
wait is the only wait duration stated anywhere in the file. -/
theorem C10_wait_500ms_only_duration :
    lineAt 72 = "3. Wait 500ms for ghost text to appear" ∧
    numberedAt (lineAt 72) = some 3 ∧
    ((List.range fileLines.length).filter (fun i => hasDigitMs (lineAt i).data)) = [72] ∧
    ((List.range fileLines.length).filter (fun i => hasSub (lineAt i) "Wait")) = [72] ∧
    hasSub (lineAt 72) "500ms" = true := by
  exact ⟨rfl, rfl, rfl, rfl, rfl⟩
